import Mathlib

/-!
Shallow embedding of the EmotionEase backend (contact / sub-domain contact /
signup route handlers) and proofs about the claims of its specification.

Strings are modelled by Lean `String`; JS machine timestamps (`Date.now()`,
epoch milliseconds) by `Int`.  Every route handler is embedded as a pure
function from its inputs (environment, in-memory store, request body, clock,
client address) and the outcome of each outbound mail send (`Except String
Unit`, mirroring a resolved or rejected `sendMail` promise) to the new store,
the HTTP response and the list of store operations it performed.
-/

/-- Prefix test on character lists (used to build the substring test). -/
def strStartsWith : List Char → List Char → Bool
  | _, [] => true
  | [], _ :: _ => false
  | a :: as, b :: bs => a == b && strStartsWith as bs

/-- Substring occurrence test on character lists. -/
def hasSubAux : List Char → List Char → Bool
  | [], pat => pat.isEmpty
  | c :: rest, pat => strStartsWith (c :: rest) pat || hasSubAux rest pat

/-- JS `String.prototype.includes`: `containsSub s pat = true` iff `pat`
occurs contiguously in `s`. -/
def containsSub (s pat : String) : Bool :=
  hasSubAux s.data pat.data

/-- JS `str.replace(/c/g, r)` for a single-character pattern `c`:
every occurrence of `c` is replaced by the string `r`. -/
def replaceAllC (c : Char) (r : List Char) : List Char → List Char
  | [] => []
  | x :: xs => (if x == c then r else [x]) ++ replaceAllC c r xs

/-- Whitespace trimming on character lists (JS `String.prototype.trim`,
also the default behaviour of the `.trim()` sanitizer). -/
def trimL (l : List Char) : List Char :=
  ((l.dropWhile Char.isWhitespace).reverse.dropWhile Char.isWhitespace).reverse

/-- JS `String.prototype.trim` on strings. -/
def strTrim (s : String) : String :=
  String.mk (trimL s.data)

/-- Split a character list at every occurrence of the separator `c`. -/
def splitOnCharAux (c : Char) : List Char → List Char → List (List Char)
  | [], acc => [acc.reverse]
  | x :: xs, acc =>
    if x == c then acc.reverse :: splitOnCharAux c xs []
    else splitOnCharAux c xs (x :: acc)

/-- Split a character list at every occurrence of the separator `c`. -/
def splitOnChar (c : Char) (l : List Char) : List (List Char) :=
  splitOnCharAux c l []

/-- JS truthiness of an environment variable (`!v` in the sources):
falsy when the variable is unset or the empty string. -/
def jsFalsy (v : Option String) : Bool :=
  v.isNone || v == some ""

/-- JS `v || d` for an environment-variable string `v` with default `d`. -/
def jsOrStr (v : Option String) (d : String) : String :=
  if jsFalsy v then d else v.getD d

/-- JS string interpolation of a possibly-undefined value:
`undefined` prints as the text "undefined". -/
def jsUndef : Option String → String
  | some s => s
  | none => "undefined"

/-- Process environment (`process.env`) restricted to the variables the
sources read.  `none` models an unset variable. -/
structure Env where
  EMAIL_USER : Option String := none
  EMAIL_PASS : Option String := none
  EMAIL_SERVICE : Option String := none
  EMAIL_HOST : Option String := none
  EMAIL_PORT : Option String := none
  EMAIL_SECURE : Option String := none
  ADMIN_EMAIL : Option String := none
  EMAIL_FROM_NAME : Option String := none
  USER_EMAIL_SUBJECT : Option String := none
  NODE_ENV : Option String := none
deriving Repr, DecidableEq

/-- Modelled stand-in for JS `new Date(ms).toLocaleString()`: the sources
treat the result as an opaque display string; we render the raw millisecond
timestamp.  No claim depends on the concrete format. -/
def dateToLocaleString (ms : Int) : String :=
  toString ms

/-- One field-level validation error, as produced by
`errors.array().map(err => ({ field: err.path, message: err.msg }))`. -/
structure FieldError where
  field : String
  message : String
deriving Repr, DecidableEq

/-- Modelled from validator.js `escape` (used by the `.escape()` sanitizer of
express-validator): sequential global replacement of `&`, `"`, `'`, `<`, `>`,
`/`, `\` and the backtick by their HTML entities, in that order. -/
def validatorEscape (s : String) : String :=
  String.mk
    (replaceAllC (Char.ofNat 96) "&#96;".data
      (replaceAllC '\\' "&#x5C;".data
        (replaceAllC '/' "&#x2F;".data
          (replaceAllC '>' "&gt;".data
            (replaceAllC '<' "&lt;".data
              (replaceAllC (Char.ofNat 39) "&#x27;".data
                (replaceAllC '"' "&quot;".data
                  (replaceAllC '&' "&amp;".data s.data))))))))

/-- Modelled from validator.js `isEmail` (simplified): exactly one `@`, a
non-empty local part, and a domain whose dot-separated labels are non-empty
with at least two labels.  The claims never depend on the exact boundary of
this predicate, only on the handler's behaviour when it fails or succeeds. -/
def isEmailM (s : String) : Bool :=
  match splitOnChar '@' s.data with
  | [lp, dom] =>
    !lp.isEmpty && decide ((splitOnChar '.' dom).length ≥ 2)
    && (splitOnChar '.' dom).all (fun lbl => !lbl.isEmpty)
    && !(s.data.contains ' ')
  | _ => false

/-- Modelled from validator.js `normalizeEmail` (simplified): lower-cases the
address.  The claims never depend on the exact canonical form. -/
def normalizeEmailM (s : String) : String :=
  String.mk (s.data.map Char.toLower)

/-- Raw request body of the contact endpoints (`req.body`): each field either
absent (`none`) or a string. -/
structure RawInput where
  name : Option String := none
  email : Option String := none
  phone : Option String := none
deriving Repr, DecidableEq

namespace SubContact

/-! Embedding of `src/routes/SubdomainContact.js`. -/

/-- `escapeHtml` of SubdomainContact.js lines 261–269: `if (!unsafe) return
''` followed by sequential global replacement of `&`, `<`, `>`, `"`, `'`. -/
def escapeHtml (s : String) : String :=
  if s == "" then ""
  else
    String.mk
      (replaceAllC (Char.ofNat 39) "&#039;".data
        (replaceAllC '"' "&quot;".data
          (replaceAllC '>' "&gt;".data
            (replaceAllC '<' "&lt;".data
              (replaceAllC '&' "&amp;".data s.data)))))

/-- `submission.phone.replace(/[^\d+]/g, '')`: keep only digits and `+`. -/
def phoneDigits (s : String) : String :=
  String.mk (s.data.filter (fun c => c.isDigit || c == '+'))

/-- A stored submission of the sub-domain contact endpoint
(SubdomainContact.js lines 106–114).  `date` is the epoch-millisecond
creation timestamp (the source stores its ISO rendering and re-parses it). -/
structure Submission where
  id : String
  name : String
  email : String
  phone : Option String
  date : Int
  status : String
  ip : String
  error : Option String := none
deriving Repr, DecidableEq

/-- `generateAdminEmail` of SubdomainContact.js lines 187–222. -/
def generateAdminEmail (sub : Submission) : String :=
  let phoneRow :=
    match sub.phone with
    | some p =>
      let safePhone := phoneDigits p
      "<p><strong>Phone:</strong> <a href=\"tel:"
        ++ safePhone
        ++ "\">"
        ++ escapeHtml p
        ++ "</a></p>"
    | none => ""
  "\n    <!DOCTYPE html>\n    <html>\n    <head>\n      <meta charset=\"UTF-8\">\n      <style>\n        body \x7b font-family: Arial, sans-serif; line-height: 1.6; color: #333; \x7d\n        .container \x7b max-width: 600px; margin: 0 auto; padding: 20px; \x7d\n        .header \x7b color: #28a745; border-bottom: 1px solid #eee; padding-bottom: 10px; \x7d\n        .footer \x7b margin-top: 20px; font-size: 0.9em; color: #777; \x7d\n        .info \x7b margin: 15px 0; \x7d\n      </style>\n    </head>\n    <body>\n      <div class=\"container\">\n        <h2 class=\"header\">New Contact Submission</h2>\n        <div class=\"info\">\n          <p><strong>Name:</strong> "
    ++ escapeHtml sub.name
    ++ "</p>\n          <p><strong>Email:</strong> <a href=\"mailto:"
    ++ escapeHtml sub.email
    ++ "\">"
    ++ escapeHtml sub.email
    ++ "</a></p>\n          "
    ++ phoneRow
    ++ "\n          <p><strong>Date:</strong> "
    ++ dateToLocaleString sub.date
    ++ "</p>\n          <p><strong>Reference ID:</strong> "
    ++ sub.id
    ++ "</p>\n          <p><strong>IP Address:</strong> "
    ++ sub.ip
    ++ "</p>\n        </div>\n        <p>Please respond to this inquiry within 24 hours.</p>\n        <div class=\"footer\">\n          <p>This is an automated message. Please do not reply directly to this email.</p>\n        </div>\n      </div>\n    </body>\n    </html>\n  "

/-- `generateUserEmail` of SubdomainContact.js lines 224–258. -/
def generateUserEmail (env : Env) (sub : Submission) : String :=
  "\n    <!DOCTYPE html>\n    <html>\n    <head>\n      <meta charset=\"UTF-8\">\n      <style>\n        body \x7b font-family: Arial, sans-serif; line-height: 1.6; color: #333; \x7d\n        .container \x7b max-width: 600px; margin: 0 auto; padding: 20px; \x7d\n        .header \x7b color: #28a745; border-bottom: 1px solid #eee; padding-bottom: 10px; \x7d\n        .footer \x7b margin-top: 20px; font-size: 0.9em; color: #777; \x7d\n      </style>\n    </head>\n    <body>\n      <div class=\"container\">\n        <h2 class=\"header\">Thank You for Contacting Us</h2>\n        <p>Dear "
    ++ escapeHtml sub.name
    ++ ",</p>\n        <p>We\x27ve received your message and our team will review it shortly. Here\x27s a summary of your submission:</p>\n        \n        <ul>\n          <li><strong>Reference ID:</strong> "
    ++ sub.id
    ++ "</li>\n          <li><strong>Submitted:</strong> "
    ++ dateToLocaleString sub.date
    ++ "</li>\n        </ul>\n        \n        <p>We typically respond within 24 hours. If you have urgent inquiries, please call our support line.</p>\n        \n        <div class=\"footer\">\n          <p>Best regards,<br>"
    ++ escapeHtml (jsOrStr env.EMAIL_FROM_NAME "The Company Team")
    ++ "</p>\n          <p><small>This is an automated message. Please do not reply directly to this email.</small></p>\n        </div>\n      </div>\n    </body>\n    </html>\n  "

/-- Sanitized `name` value: chain `trim().escape()` (SubdomainContact.js
lines 67–69) applied to the raw field (missing fields validate as ""). -/
def sanName (input : RawInput) : String :=
  validatorEscape (strTrim (input.name.getD ""))

/-- Errors of the `name` chain (notEmpty, isLength max 100), first error
only, as `errors.array({ onlyFirstError: true })` reports them. -/
def nameErrs (input : RawInput) : List FieldError :=
  let v := sanName input
  if v == "" then [⟨"name", "Name is required"⟩]
  else if 100 < v.length then [⟨"name", "Name must be less than 100 characters"⟩]
  else []

/-- Sanitized `email` value: chain `trim().normalizeEmail()` (lines 73–75). -/
def sanEmail (input : RawInput) : String :=
  normalizeEmailM (strTrim (input.email.getD ""))

/-- Errors of the `email` chain (notEmpty, isEmail, isLength max 255),
first error only. -/
def emailErrs (input : RawInput) : List FieldError :=
  let v := sanEmail input
  if v == "" then [⟨"email", "Email is required"⟩]
  else if !isEmailM v then [⟨"email", "Email is invalid"⟩]
  else if 255 < v.length then [⟨"email", "Email must be less than 255 characters"⟩]
  else []

/-- Character class of the phone pattern `/^[\d\s+()\-]*$/` (line 85). -/
def phoneChar (c : Char) : Bool :=
  c.isDigit || c == ' ' || c == '\t' || c == '\n' || c == '\r' ||
  c == '+' || c == '(' || c == ')' || c == '-'

/-- Sanitized `phone` value: `.optional().trim().escape()` — absent fields
are skipped entirely (lines 80–83). -/
def sanPhone (input : RawInput) : Option String :=
  input.phone.map (fun p => validatorEscape (strTrim p))

/-- Errors of the `phone` chain (isLength max 20, matches), first error
only; an absent optional field produces no errors. -/
def phoneErrs (input : RawInput) : List FieldError :=
  match sanPhone input with
  | none => []
  | some v =>
    if 20 < v.length then [⟨"phone", "Phone must be less than 20 characters"⟩]
    else if !(v.data.all phoneChar) then [⟨"phone", "Phone contains invalid characters"⟩]
    else []

/-- `validationResult(req)` for the three `contactValidationRules` chains,
in rule order. -/
def validateContact (input : RawInput) : List FieldError :=
  nameErrs input ++ emailErrs input ++ phoneErrs input

/-- The in-memory `submissions` Map, as an insertion-ordered association
list with unique keys maintained by `mapSet`. -/
abbrev SubMap := List (String × Submission)

/-- JS `Map.prototype.set`: replaces in place when the key exists, appends
otherwise. -/
def mapSet (m : SubMap) (k : String) (v : Submission) : SubMap :=
  if m.any (fun e => e.1 == k) then m.map (fun e => if e.1 == k then (k, v) else e)
  else m ++ [(k, v)]

/-- JS `Map.prototype.get`. -/
def mapGet (m : SubMap) (k : String) : Option Submission :=
  (m.find? (fun e => e.1 == k)).map (·.2)

/-- A store mutation performed by the handler or the sweep. -/
inductive StoreOp where
  | set (id : String) (sub : Submission)
  | del (id : String)
deriving Repr, DecidableEq

def applyOp (m : SubMap) : StoreOp → SubMap
  | .set k v => mapSet m k v
  | .del k => m.filter (fun e => e.1 != k)

def applyOps (m : SubMap) (ops : List StoreOp) : SubMap :=
  ops.foldl applyOp m

/-- Sequence of `status` values written by a list of store operations. -/
def statusTrace (ops : List StoreOp) : List String :=
  ops.filterMap (fun op => match op with | .set _ s => some s.status | .del _ => none)

/-- JSON body and status code of a reply of the `/submit` handler. -/
structure ContactResponse where
  status : Nat
  success : Bool
  message : String
  errors : List FieldError := []
  dataId : Option String := none
  dataName : Option String := none
  dataEmail : Option String := none
  errorDetail : Option String := none
deriving Repr, DecidableEq

/-- Result of one run of the `/submit` handler: new store, HTTP response,
the store operations performed, and `console.error` log lines. -/
structure SubmitOut where
  store : SubMap
  resp : ContactResponse
  ops : List StoreOp
  log : List String := []
deriving Repr, DecidableEq

/-- `SubDomainContactRouter.post('/submit')` (SubdomainContact.js lines
89–184).  `adminSend` / `userSend` are the outcomes of the two
`transporter.sendMail` promises; the user send is guarded by `.catch`, so
`Promise.all` rejects exactly when the admin send rejects.  Template
generation (`generateAdminEmail` / `generateUserEmail`) is pure and cannot
throw, so it does not influence control flow. -/
def handleSubmit (env : Env) (store : SubMap) (input : RawInput) (nowMs : Int)
    (ip : String) (adminSend userSend : Except String Unit) : SubmitOut :=
  let errs := validateContact input
  if errs.isEmpty then
    let submissionId := toString nowMs
    let sub : Submission :=
      { id := submissionId
        name := sanName input
        email := sanEmail input
        phone := match sanPhone input with
                 | some p => if p == "" then none else some p
                 | none => none
        date := nowMs
        status := "pending"
        ip := ip }
    let userLog : List String :=
      match userSend with
      | .ok _ => []
      | .error e => ["Failed to send user email: " ++ e]
    match adminSend with
    | .ok _ =>
      let ops := [StoreOp.set submissionId sub,
                  StoreOp.set submissionId { sub with status := "completed" }]
      { store := applyOps store ops
        resp := { status := 200, success := true
                  message := "Thank you for contacting us! We will get back to you soon."
                  dataId := some submissionId
                  dataName := some sub.name
                  dataEmail := some sub.email }
        ops := ops
        log := userLog }
    | .error e =>
      let ops := [StoreOp.set submissionId sub,
                  StoreOp.set submissionId { sub with status := "failed", error := some e }]
      { store := applyOps store ops
        resp := { status := if containsSub e "credentials" then 503 else 500
                  success := false
                  message := if containsSub e "credentials" then "Service temporarily unavailable"
                             else "Failed to process your submission. Please try again later."
                  errorDetail := if env.NODE_ENV == some "development" then some e else none }
        ops := ops
        log := ("Submission error: " ++ e) :: userLog }
  else
    { store := store
      resp := { status := 400, success := false, message := "Validation failed", errors := errs }
      ops := [] }

/-- `SUBMISSION_TTL = 24 * 60 * 60 * 1000` (line 20). -/
def SUBMISSION_TTL : Int := 24 * 60 * 60 * 1000

/-- The `setInterval` period of the cleanup task (line 30). -/
def sweepIntervalMs : Int := 60 * 60 * 1000

/-- One run of the periodic cleanup (lines 23–30): deletes every entry with
`now - date > SUBMISSION_TTL`, keeps the rest untouched. -/
def sweepSubmissions (now : Int) (store : SubMap) : SubMap :=
  store.filter (fun e => !(decide (now - e.2.date > SUBMISSION_TTL)))

/-- The nodemailer transport configuration built by `createTransporter`
(lines 33–61). -/
structure TransportConfig where
  pool : Bool
  maxConnections : Nat
  maxMessages : Nat
  rateDelta : Nat
  rateMessages : Nat
  authUser : String
  authPass : String
  service : Option String := none
  host : Option String := none
  port : Option Int := none
  secure : Option Bool := none
deriving Repr, DecidableEq

/-- `createTransporter` (lines 33–61): throws `Email credentials not
configured` when either credential is falsy, otherwise builds the pooled
configuration.  `parseInt` of the port is modelled by `String.toInt?`. -/
def createTransporter (env : Env) : Except String TransportConfig :=
  if jsFalsy env.EMAIL_USER || jsFalsy env.EMAIL_PASS then
    .error "Email credentials not configured"
  else
    let base : TransportConfig :=
      { pool := true, maxConnections := 5, maxMessages := 100
        rateDelta := 1000, rateMessages := 5
        authUser := env.EMAIL_USER.getD "", authPass := env.EMAIL_PASS.getD "" }
    if env.EMAIL_SERVICE == some "gmail" then
      .ok { base with service := some "gmail" }
    else
      .ok { base with host := env.EMAIL_HOST
                      port := env.EMAIL_PORT.bind String.toInt?
                      secure := some (env.EMAIL_SECURE == some "true") }

end SubContact

namespace Contact000

/-! Embedding of `src/unnamed/part_000` (the basic contact route). -/

/-- Raw request body of the basic contact endpoint. -/
structure RawInput000 where
  name : Option String := none
  email : Option String := none
  phone : Option String := none
  category : Option String := none
  message : Option String := none
  age : Option String := none
deriving Repr, DecidableEq

/-- A stored submission (part_000 lines 44–53).  `phone` and `age` carry the
raw request values: no validation rule exists for them. -/
structure Submission where
  id : Int
  name : String
  email : String
  phone : Option String
  category : String
  age : Option String
  message : String
  date : Int
deriving Repr, DecidableEq

/-- `name` chain errors (`notEmpty` runs on the raw value: the sanitizers
`trim().escape()` come after it in the chain, part_000 line 22). -/
def nameErrs (input : RawInput000) : List FieldError :=
  if (input.name.getD "") == "" then [⟨"name", "Name is required"⟩] else []

/-- `email` chain errors (lines 23–26): `notEmpty` and `isEmail` both run on
the raw value and `errors.array()` reports every failure. -/
def emailErrs (input : RawInput000) : List FieldError :=
  (if (input.email.getD "") == "" then [⟨"email", "Email is required"⟩] else []) ++
  (if !isEmailM (input.email.getD "") then [⟨"email", "Email is invalid"⟩] else [])

/-- `category` chain errors (line 27). -/
def categoryErrs (input : RawInput000) : List FieldError :=
  if (input.category.getD "") == "" then [⟨"category", "Category is required"⟩] else []

/-- `message` chain errors (line 28). -/
def messageErrs (input : RawInput000) : List FieldError :=
  if (input.message.getD "") == "" then [⟨"message", "Message is required"⟩] else []

/-- `validationResult(req)` for the four rules of part_000, in rule order;
the response reports the full `errors.array()`. -/
def validate000 (input : RawInput000) : List FieldError :=
  nameErrs input ++ emailErrs input ++ categoryErrs input ++ messageErrs input

/-- Sanitized `name` (chain `trim().escape()`). -/
def sanName (input : RawInput000) : String :=
  validatorEscape (strTrim (input.name.getD ""))

/-- Sanitized `email` (chain `normalizeEmail()`). -/
def sanEmail (input : RawInput000) : String :=
  normalizeEmailM (input.email.getD "")

/-- Sanitized `category`. -/
def sanCategory (input : RawInput000) : String :=
  validatorEscape (strTrim (input.category.getD ""))

/-- Sanitized `message`. -/
def sanMessage (input : RawInput000) : String :=
  validatorEscape (strTrim (input.message.getD ""))

/-- `submission.message.replace(/\n/g, '<br>')` (line 210). -/
def replaceNewlines (s : String) : String :=
  String.mk (replaceAllC '\n' "<br>".data s.data)

/-- `generateAdminEmail` of part_000 lines 110–226.  All record fields are
embedded verbatim — this renderer performs no escaping of its own.
`new Date().getFullYear()` is the explicit `currentYear` argument. -/
def generateAdminEmail (currentYear : Int) (sub : Submission) : String :=
  let phoneRow :=
    match sub.phone with
    | some p =>
      "\n                  <tr>\n                    <th scope=\"row\">Phone</th>\n                    <td><a href=\"tel:"
        ++ p
        ++ "\">"
        ++ p
        ++ "</a></td>\n                  </tr>\n                  "
    | none => ""
  "\n    <!DOCTYPE html>\n    <html lang=\"en\">\n    <head>\n      <meta charset=\"UTF-8\">\n      <meta name=\"viewport\" content=\"width=device-width, initial-scale=1.0\">\n      <title>New Contact Submission</title>\n      <link href=\"https://cdn.jsdelivr.net/npm/bootstrap@5.3.0/dist/css/bootstrap.min.css\" rel=\"stylesheet\">\n      <style>\n        .email-container \x7b\n          max-width: 600px;\n          margin: 0 auto;\n          font-family: \x27Segoe UI\x27, Tahoma, Geneva, Verdana, sans-serif;\n        \x7d\n        .header \x7b\n          background-color: #4a76a8;\n          color: white;\n          padding: 20px;\n          border-radius: 5px 5px 0 0;\n        \x7d\n        .content \x7b\n          padding: 20px;\n          background-color: #f8f9fa;\n          border-radius: 0 0 5px 5px;\n        \x7d\n        .detail-item \x7b\n          margin-bottom: 15px;\n        \x7d\n        .message-box \x7b\n          background-color: white;\n          border-left: 4px solid #4a76a8;\n          padding: 15px;\n          margin: 15px 0;\n        \x7d\n        .footer \x7b\n          margin-top: 20px;\n          padding-top: 20px;\n          border-top: 1px solid #dee2e6;\n          font-size: 0.9em;\n          color: #6c757d;\n        \x7d\n      </style>\n    </head>\n    <body>\n      <div class=\"email-container\">\n        <div class=\"header text-center\">\n          <h2>New Contact Form Submission</h2>\n          <p class=\"mb-0\">EmotionEase Support</p>\n        </div>\n        \n        <div class=\"content\">\n          <div class=\"alert alert-primary\" role=\"alert\">\n            <strong>Action Required:</strong> Please respond to this inquiry within 24-48 hours.\n          </div>\n          \n          <div class=\"card mb-4\">\n            <div class=\"card-header bg-light\">\n              <h5 class=\"mb-0\">Submission Details</h5>\n            </div>\n            <div class=\"card-body\">\n              <table class=\"table table-bordered\">\n                <tbody>\n                  <tr>\n                    <th scope=\"row\" style=\"width: 30%\">Name</th>\n                    <td>"
    ++ sub.name
    ++ "</td>\n                  </tr>\n                  <tr>\n                    <th scope=\"row\" style=\"width: 30%\"Age</th>\n                    <td>"
    ++ jsUndef sub.age
    ++ "</td>\n                  </tr>\n                  <tr>\n                    <th scope=\"row\">Email</th>\n                    <td><a href=\"mailto:"
    ++ sub.email
    ++ "\">"
    ++ sub.email
    ++ "</a></td>\n                  </tr>\n                  "
    ++ phoneRow
    ++ "\n                  <tr>\n                    <th scope=\"row\">Category</th>\n                    <td><span class=\"badge bg-info\">"
    ++ sub.category
    ++ "</span></td>\n                  </tr>\n\n                  <tr>\n                    <th scope=\"row\">Date</th>\n                    <td>"
    ++ dateToLocaleString sub.date
    ++ "</td>\n                  </tr>\n                </tbody>\n              </table>\n            </div>\n          </div>\n          \n          <div class=\"card\">\n            <div class=\"card-header bg-light\">\n              <h5 class=\"mb-0\">Message</h5>\n            </div>\n            <div class=\"card-body message-box\">\n              <p>"
    ++ replaceNewlines sub.message
    ++ "</p>\n            </div>\n          </div>\n          \n          <div class=\"text-center mt-4\">\n            <a href=\"mailto:"
    ++ sub.email
    ++ "\" class=\"btn btn-primary\">Reply to "
    ++ sub.name
    ++ "</a>\n          </div>\n          \n          <div class=\"footer text-center\">\n            <p>&copy; "
    ++ toString currentYear
    ++ " EmotionEase. All rights reserved.</p>\n          </div>\n        </div>\n      </div>\n    </body>\n    </html>\n  "

/-- JSON body and status code of a reply of the part_000 `/submit` handler. -/
structure Response000 where
  status : Nat
  success : Bool
  message : Option String := none
  errors : List FieldError := []
  data : Option Submission := none
  error : Option String := none
deriving Repr, DecidableEq

/-- Result of one run of the part_000 `/submit` handler. -/
structure Out000 where
  store : List Submission
  resp : Response000
deriving Repr, DecidableEq

/-- `router.post('/submit')` of part_000 lines 32–98.  The two sends are
sequential (`await` each); any rejection reaches the catch handler, which
replies 500 and always exposes `error.message`.  The pushed submission is
never removed or updated. -/
def handleSubmit (store : List Submission) (input : RawInput000) (nowMs : Int)
    (adminSend userSend : Except String Unit) : Out000 :=
  let errs := validate000 input
  if errs.isEmpty then
    let sub : Submission :=
      { id := nowMs
        name := sanName input
        email := sanEmail input
        phone := match input.phone with
                 | some p => if p == "" then none else some p
                 | none => none
        category := sanCategory input
        age := input.age
        message := sanMessage input
        date := nowMs }
    let store1 := store ++ [sub]
    let failResp := fun (e : String) =>
      ({ store := store1
         resp := { status := 500, success := false
                   message := some "Form submitted but failed to send confirmation email"
                   error := some e } } : Out000)
    match adminSend with
    | .error e => failResp e
    | .ok _ =>
      match userSend with
      | .error e => failResp e
      | .ok _ =>
        { store := store1
          resp := { status := 200, success := true
                    message := some "Thank you for contacting us! We will get back to you soon."
                    data := some sub } }
  else
    { store := store
      resp := { status := 400, success := false, errors := errs } }

/-- Reply of `router.get('/submissions')` (part_000 lines 101–107). -/
structure ListResponse where
  status : Nat
  success : Bool
  count : Nat
  data : List Submission
deriving Repr, DecidableEq

/-- `router.get('/submissions')` (part_000 lines 101–107). -/
def getSubmissions (store : List Submission) : ListResponse :=
  { status := 200, success := true, count := store.length, data := store }

end Contact000

namespace Contact002

/-! Embedding of `src/unnamed/part_002` (the earlier sub-domain contact
route exported as `SubDomainContactRouter`). -/

/-- A stored submission (part_002 lines 67–74). -/
structure Submission where
  id : String
  name : String
  email : String
  phone : Option String
  date : Int
  status : String
deriving Repr, DecidableEq

/-- `createTransporter` of part_002 lines 12–28: throws when either
credential is falsy, otherwise a pooled gmail transport. -/
def createTransporter (env : Env) : Except String SubContact.TransportConfig :=
  if jsFalsy env.EMAIL_USER || jsFalsy env.EMAIL_PASS then
    .error "Email credentials not configured"
  else
    .ok { pool := true, maxConnections := 1, maxMessages := 5
          rateDelta := 0, rateMessages := 0
          authUser := env.EMAIL_USER.getD "", authPass := env.EMAIL_PASS.getD ""
          service := some "gmail" }

/-- `name` chain errors (part_002 lines 34–38): `notEmpty` on the raw value,
then `trim().escape()`, then `isLength max 100` on the sanitized value;
first error only. -/
def nameErrs (input : RawInput) : List FieldError :=
  if (input.name.getD "") == "" then [⟨"name", "Name is required"⟩]
  else if 100 < (validatorEscape (strTrim (input.name.getD ""))).length then
    [⟨"name", "Name must be less than 100 characters"⟩]
  else []

/-- `email` chain errors (lines 40–44): `notEmpty` and `isEmail` on the raw
value, `normalizeEmail`, then `isLength max 255` on the normalized value. -/
def emailErrs (input : RawInput) : List FieldError :=
  if (input.email.getD "") == "" then [⟨"email", "Email is required"⟩]
  else if !isEmailM (input.email.getD "") then [⟨"email", "Email is invalid"⟩]
  else if 255 < (normalizeEmailM (input.email.getD "")).length then
    [⟨"email", "Email must be less than 255 characters"⟩]
  else []

/-- Character class of the phone pattern `/^[0-9+() -]*$/` (line 51). -/
def phoneChar002 (c : Char) : Bool :=
  c.isDigit || c == '+' || c == '(' || c == ')' || c == ' ' || c == '-'

/-- `phone` chain errors (lines 46–51): optional, `trim().escape()`, then
`isLength max 20` and the character-class match on the sanitized value. -/
def phoneErrs (input : RawInput) : List FieldError :=
  match input.phone with
  | none => []
  | some p =>
    let v := validatorEscape (strTrim p)
    if 20 < v.length then [⟨"phone", "Phone must be less than 20 characters"⟩]
    else if !(v.data.all phoneChar002) then [⟨"phone", "Phone contains invalid characters"⟩]
    else []

/-- `validationResult(req)` for the three rules of part_002
(`errors.array({ onlyFirstError: true })`). -/
def validate002 (input : RawInput) : List FieldError :=
  nameErrs input ++ emailErrs input ++ phoneErrs input

/-- Sanitized `name` value. -/
def sanName (input : RawInput) : String :=
  validatorEscape (strTrim (input.name.getD ""))

/-- Sanitized `email` value (no `trim` in this chain). -/
def sanEmail (input : RawInput) : String :=
  normalizeEmailM (input.email.getD "")

/-- Sanitized `phone` value. -/
def sanPhone (input : RawInput) : Option String :=
  input.phone.map (fun p => validatorEscape (strTrim p))

/-- A store mutation of the part_002 handler: `submissions.push` or the
in-place `submission.status = …` assignment (the array keeps the object). -/
inductive Op002 where
  | push (sub : Submission)
  | setStat (id : String) (status : String)
deriving Repr, DecidableEq

def applyOp002 (store : List Submission) : Op002 → List Submission
  | .push s => store ++ [s]
  | .setStat id st => store.map (fun s => if s.id == id then { s with status := st } else s)

def applyOps002 (store : List Submission) (ops : List Op002) : List Submission :=
  ops.foldl applyOp002 store

/-- Sequence of `status` values written by a list of part_002 store
operations. -/
def statusTrace002 (ops : List Op002) : List String :=
  ops.filterMap (fun op => match op with | .push s => some s.status | .setStat _ st => some st)

/-- JSON body and status code of a reply of the part_002 handler. -/
structure Response002 where
  status : Nat
  success : Bool
  message : Option String := none
  errors : List FieldError := []
  dataId : Option String := none
  dataName : Option String := none
  dataEmail : Option String := none
  errorDetail : Option String := none
deriving Repr, DecidableEq

/-- Result of one run of the part_002 `/submit` handler. -/
structure Out002 where
  store : List Submission
  resp : Response002
  ops : List Op002
deriving Repr, DecidableEq

/-- `router.post('/submit')` of part_002 lines 55–140.  The missing
`ADMIN_EMAIL` check throws inside the try block; the two sends run under
`Promise.all` with no catch on either, so a rejection of either send reaches
the catch handler (when both reject, the admin rejection is the one
observed, matching `Promise.all`'s first-settled-rejection with the admin
promise listed first).  The catch handler computes
`error.message.includes('credentials') ? 500 : 500` — both arms 500 — and
exposes the raw message only in development mode. -/
def handleSubmit (env : Env) (store : List Submission) (input : RawInput)
    (nowMs : Int) (adminSend userSend : Except String Unit) : Out002 :=
  let errs := validate002 input
  if errs.isEmpty then
    let sub : Submission :=
      { id := toString nowMs
        name := sanName input
        email := sanEmail input
        phone := match sanPhone input with
                 | some p => if p == "" then none else some p
                 | none => none
        date := nowMs
        status := "pending" }
    let failOut := fun (e : String) =>
      let ops := [Op002.push sub, Op002.setStat sub.id "failed"]
      ({ store := applyOps002 store ops
         resp := { status := if containsSub e "credentials" then 500 else 500
                   success := false
                   message := some (if containsSub e "credentials" then
                       "Service temporarily unavailable"
                     else "Failed to process your submission. Please try again later.")
                   errorDetail := if env.NODE_ENV == some "development" then some e else none }
         ops := ops } : Out002)
    if jsFalsy env.ADMIN_EMAIL then
      failOut "Admin email not configured"
    else
      match adminSend with
      | .error e => failOut e
      | .ok _ =>
        match userSend with
        | .error e => failOut e
        | .ok _ =>
          let ops := [Op002.push sub, Op002.setStat sub.id "completed"]
          { store := applyOps002 store ops
            resp := { status := 200, success := true
                      message := some "Thank you for contacting us! We will get back to you soon."
                      dataId := some sub.id, dataName := some sub.name
                      dataEmail := some sub.email }
            ops := ops }
  else
    { store := store
      resp := { status := 400, success := false, errors := errs }
      ops := [] }

end Contact002

namespace SignUpNS

/-! Embedding of `src/routes/SignUp.js`. -/

/-- A stored signup (SignUp.js lines 57–64). -/
structure Signup where
  id : Int
  name : String
  email : String
  phone : String
  date : Int
  source : String
deriving Repr, DecidableEq

/-- The transport configuration of SignUp.js lines 13–19. -/
structure SignupTransport where
  service : String
  authUser : Option String
  authPass : Option String
deriving Repr, DecidableEq

/-- Transporter of SignUp.js lines 13–19: `nodemailer.createTransport` is
called with whatever credentials are present — missing ones are passed as
`undefined`; no check is performed. -/
def signupTransporter (env : Env) : SignupTransport :=
  { service := "gmail", authUser := env.EMAIL_USER, authPass := env.EMAIL_PASS }

/-- Transport construction of SignUp.js viewed as a fallible computation,
for comparison with the `createTransporter` variants: `createTransport`
performs no credential check and construction always succeeds. -/
def signupTransporterE (env : Env) : Except String SignupTransport :=
  .ok (signupTransporter env)

/-- Reply of `router.get('/')` (SignUp.js lines 115–121). -/
structure ListResponse where
  status : Nat
  success : Bool
  count : Nat
  data : List Signup
deriving Repr, DecidableEq

/-- `router.get('/')` of SignUp.js lines 115–121. -/
def getSignups (store : List Signup) : ListResponse :=
  { status := 200, success := true, count := store.length, data := store }

end SignUpNS

namespace RateLimiter

/-! Modelled from the spec: the counting algorithm of the
`express-rate-limit` dependency is not part of this repository — only its
configuration (SubdomainContact.js lines 12–16: `windowMs: 15 * 60 * 1000`,
`max: 5`, the fixed message) and its position in front of the validation
chain (line 89) are.  Spec §4.2 describes the external behaviour as a
sliding-window counter keyed by the client network address: a request is
accepted iff fewer than `rateMax` requests of the same address were accepted
within the preceding window. -/

/-- `windowMs: 15 * 60 * 1000` (SubdomainContact.js line 13). -/
def rateWindowMs : Int := 15 * 60 * 1000

/-- `max: 5` (line 14). -/
def rateMax : Nat := 5

/-- `message` (line 15). -/
def rateMessage : String := "Too many contact attempts, please try again later"

/-- A request event: arrival time (epoch ms) and client address. -/
abbrev Req := Int × String

/-- Membership of an accepted event in the window that the limiter consults
when deciding a request of address `addr` arriving at `now`. -/
def inDecisionWin (now : Int) (addr : String) (e : Req) : Bool :=
  e.2 == addr && now - e.1 < rateWindowMs

/-- Number of accepted events of `addr` within the decision window at `now`. -/
def countWin (acc : List Req) (addr : String) (now : Int) : Nat :=
  (acc.filter (inDecisionWin now addr)).length

/-- One limiter decision: append the event when the window holds fewer than
`rateMax` accepted events of that address, otherwise reject it. -/
def stepLimiter (acc : List Req) (r : Req) : List Req :=
  if countWin acc r.2 r.1 < rateMax then acc ++ [r] else acc

/-- Accepted events after a request sequence is processed in order. -/
def runLimiter (reqs : List Req) : List Req :=
  reqs.foldl stepLimiter []

/-- Membership of an event in an arbitrary 15-minute window `[t0, t0 + W)`. -/
def inFixedWin (t0 : Int) (addr : String) (e : Req) : Bool :=
  e.2 == addr && decide (t0 ≤ e.1) && decide (e.1 < t0 + rateWindowMs)

/-- The `/submit` route with `contactLimiter` mounted in front of the
validation chain (SubdomainContact.js line 89): a request over the limit is
answered with the fixed message (HTTP 429, the express-rate-limit default)
and the handler — validation included — never runs. -/
def contactRoute (env : Env) (lim : List Req) (store : SubContact.SubMap)
    (input : RawInput) (nowMs : Int) (ip : String)
    (adminSend userSend : Except String Unit) :
    List Req × SubContact.SubmitOut :=
  if countWin lim ip nowMs < rateMax then
    (lim ++ [(nowMs, ip)], SubContact.handleSubmit env store input nowMs ip adminSend userSend)
  else
    (lim, { store := store
            resp := { status := 429, success := false, message := rateMessage }
            ops := [] })

end RateLimiter

/-- Number of occurrences of the character `c` in the string `s`. -/
def countC (c : Char) (s : String) : Nat :=
  s.data.count c

/-- The HTML-special characters whose unescaped occurrence enables markup
injection: `<`, `>`, `"` and the apostrophe (`&` is excluded: escaping
introduces `&` as the head of an entity). -/
def htmlSpecials : List Char :=
  ['<', '>', '"', Char.ofNat 39]

/-- A submission with all user-supplied text fields (`name`, `email`,
`phone`) blanked, the server-generated fields (`id`, `date`, `ip`) and the
presence of `phone` kept.  Comparing character counts of a rendering against
the rendering of the scrubbed record isolates the contribution of the
user-supplied text. -/
def scrubUserText (sub : SubContact.Submission) : SubContact.Submission :=
  { sub with name := "", email := "", phone := sub.phone.map (fun _ => "") }

/-- A part_000 submission record whose `name` carries a script tag. -/
def c1Record : Contact000.Submission :=
  { id := 1700000000000
    name := "<script>alert(1)</script>"
    email := "a@b.com"
    phone := none
    category := "General"
    age := some "30"
    message := "Hello"
    date := 1700000000000 }


/-! ## Helper lemmas -/

theorem countC_append (c : Char) (a b : String) :
    countC c (a ++ b) = countC c a + countC c b := by
  simp [countC, String.data_append]

theorem count_replaceAllC_self {c : Char} {r : List Char} (h : c ∉ r) :
    ∀ l, (replaceAllC c r l).count c = 0
  | [] => by simp [replaceAllC]
  | x :: xs => by
    simp only [replaceAllC, List.count_append, count_replaceAllC_self h xs]
    by_cases hx : x == c
    · simp [hx, List.count_eq_zero.mpr h]
    · simp [hx, List.count_cons]

theorem count_replaceAllC_other {a c : Char} {r : List Char} (hr : c ∉ r) :
    ∀ l : List Char, l.count c = 0 → (replaceAllC a r l).count c = 0
  | [], _ => by simp [replaceAllC]
  | x :: xs, h => by
    rw [List.count_cons] at h
    by_cases hxc : (x == c) = true
    · rw [if_pos hxc] at h; omega
    · rw [if_neg hxc] at h
      have hxs : xs.count c = 0 := by omega
      have hx : (x == c) = false := by simpa using hxc
      simp only [replaceAllC, List.count_append, count_replaceAllC_other hr xs hxs]
      by_cases hxa : (x == a) = true
      · simp [hxa, List.count_eq_zero.mpr hr]
      · simp [hxa, List.count_cons, hx]

theorem countC_escapeHtml {c : Char} (hc : c ∈ htmlSpecials) (s : String) :
    countC c (SubContact.escapeHtml s) = 0 := by
  unfold SubContact.escapeHtml
  by_cases h0 : s == ""
  · simp [h0, countC]
  · simp only [h0, Bool.false_eq_true, if_false, countC]
    simp only [htmlSpecials, List.mem_cons, List.not_mem_nil, or_false] at hc
    rcases hc with rfl | rfl | rfl | rfl
    · exact count_replaceAllC_other (by decide) _
        (count_replaceAllC_other (by decide) _
          (count_replaceAllC_other (by decide) _
            (count_replaceAllC_self (by decide) _)))
    · exact count_replaceAllC_other (by decide) _
        (count_replaceAllC_other (by decide) _
          (count_replaceAllC_self (by decide) _))
    · exact count_replaceAllC_other (by decide) _
        (count_replaceAllC_self (by decide) _)
    · exact count_replaceAllC_self (by decide) _

theorem countC_phoneDigits {c : Char} (hc : c ∈ htmlSpecials) (p : String) :
    countC c (SubContact.phoneDigits p) = 0 := by
  simp only [countC, SubContact.phoneDigits]
  rw [List.count_eq_zero]
  intro hmem
  rw [List.mem_filter] at hmem
  have hpred := hmem.2
  simp only [htmlSpecials, List.mem_cons, List.not_mem_nil, or_false] at hc
  rcases hc with rfl | rfl | rfl | rfl <;> exact absurd hpred (by decide)

theorem strStartsWith_head_false {x c : Char} {xs p : List Char}
    (h : (x == c) = false) : strStartsWith (x :: xs) (c :: p) = false := by
  simp [strStartsWith, h]

theorem hasSubAux_eq_false {c : Char} (p : List Char) :
    ∀ l : List Char, c ∉ l → hasSubAux l (c :: p) = false
  | [], _ => rfl
  | x :: xs, h => by
    simp only [List.mem_cons, not_or] at h
    have hx : (x == c) = false := by
      by_cases hxc : x == c
      · exact absurd (eq_of_beq hxc).symm h.1
      · simpa using hxc
    simp [hasSubAux, strStartsWith_head_false hx, hasSubAux_eq_false p xs h.2]

theorem infix_str_append_right {l : List Char} {a : String} (b : String)
    (h : l <:+: a.data) : l <:+: (a ++ b).data := by
  rw [String.data_append]
  obtain ⟨s, t, heq⟩ := h
  exact ⟨s, t ++ b.data, by rw [← heq]; simp⟩

/-- The part_000 admin renderer embeds the raw `name` field verbatim
(no escaping): the raw name is always an infix of the rendered document. -/
theorem rawName_infix_admin000 (year : Int) (sub : Contact000.Submission) :
    sub.name.data <:+: (Contact000.generateAdminEmail year sub).data := by
  simp only [Contact000.generateAdminEmail]
  apply infix_str_append_right
  apply infix_str_append_right
  apply infix_str_append_right
  rw [String.data_append]
  exact (List.suffix_append _ _).isInfix

theorem find?_map_set (k : String) (v : SubContact.Submission) :
    ∀ m : SubContact.SubMap, m.any (fun e => e.1 == k) = true →
      SubContact.mapGet (m.map (fun e => if e.1 == k then (k, v) else e)) k = some v
  | [], h => by simp at h
  | e :: rest, h => by
    by_cases he : (e.1 == k) = true
    · have hfe : (if e.1 == k then (k, v) else e) = (k, v) := by rw [if_pos he]
      simp only [List.map_cons, hfe]
      simp only [SubContact.mapGet]
      rw [List.find?_cons_of_pos _ (by simp)]
      simp
    · have hrest : rest.any (fun e => e.1 == k) = true := by
        simp only [List.any_cons, he, Bool.false_or] at h
        exact h
      have hr := find?_map_set k v rest hrest
      simp only [List.map_cons, he, Bool.false_eq_true, if_false]
      simp only [SubContact.mapGet] at hr ⊢
      rw [List.find?_cons_of_neg _ (by simp [he])]
      exact hr

theorem find?_append_set (k : String) (v : SubContact.Submission)
    (m : SubContact.SubMap) (h : m.any (fun e => e.1 == k) = false) :
    SubContact.mapGet (m ++ [(k, v)]) k = some v := by
  rw [List.any_eq_false] at h
  have hnone : m.find? (fun e => e.1 == k) = none :=
    List.find?_eq_none.mpr fun x hx => by simpa using h x hx
  simp only [SubContact.mapGet, List.find?_append, hnone, Option.none_or]
  rw [List.find?_cons_of_pos _ (by simp)]
  simp

/-- `Map.set` followed by `Map.get` of the same key yields the stored value. -/
theorem mapGet_mapSet_self (m : SubContact.SubMap) (k : String)
    (v : SubContact.Submission) :
    SubContact.mapGet (SubContact.mapSet m k v) k = some v := by
  unfold SubContact.mapSet
  by_cases hany : m.any (fun e => e.1 == k) = true
  · rw [if_pos hany]
    exact find?_map_set k v m hany
  · rw [if_neg hany]
    exact find?_append_set k v m (by rwa [Bool.not_eq_true] at hany)

/-! ## Claim C1 -/

/-- Claim C1 counterexample: part_000's `generateAdminEmail` performs no
render-time escaping; rendering a record whose `name` field is
`<script>alert(1)</script>` yields HTML in which the unescaped `<script>`
tag occurs verbatim.  (The corresponding renderer of SubdomainContact.js
does escape; see the amended theorem.) -/
theorem c1_counterexample_part000_raw_name :
    "<script>".data <:+: (Contact000.generateAdminEmail 2025 c1Record).data := by
  have h1 : "<script>".data <:+: c1Record.name.data := by decide
  exact h1.trans (rawName_infix_admin000 2025 c1Record)

/-- Claim C1 (amended): in SubdomainContact.js the renderers escape the
user-supplied fields at render time themselves (`escapeHtml` at each
splice), so the user-supplied text contributes no unescaped HTML-special
character to either rendered document: the count of every HTML-special
character in the admin and user HTML is unchanged when `name`, `email` and
`phone` are blanked, `escapeHtml` output never contains such a character,
and in particular never contains a `<script>` tag.  The part_000 renderer
instead embeds the fields verbatim, relying on upstream validator escaping
(see the counterexample). -/
theorem c1_amended_render_time_escaping (sub : SubContact.Submission) (env : Env)
    (c : Char) (hc : c ∈ htmlSpecials) :
    countC c (SubContact.generateAdminEmail sub) =
      countC c (SubContact.generateAdminEmail (scrubUserText sub))
    ∧ countC c (SubContact.generateUserEmail env sub) =
      countC c (SubContact.generateUserEmail env (scrubUserText sub))
    ∧ (∀ s, countC c (SubContact.escapeHtml s) = 0)
    ∧ (∀ s, containsSub (SubContact.escapeHtml s) "<script>" = false) := by
  refine ⟨?_, ?_, fun s => countC_escapeHtml hc s, fun s => ?_⟩
  · cases hp : sub.phone with
    | none =>
      simp only [SubContact.generateAdminEmail, scrubUserText, hp, Option.map_none']
      simp [countC_append, countC_escapeHtml hc]
    | some p =>
      simp only [SubContact.generateAdminEmail, scrubUserText, hp, Option.map_some']
      simp [countC_append, countC_escapeHtml hc, countC_phoneDigits hc]
  · simp only [SubContact.generateUserEmail, scrubUserText]
    simp [countC_append, countC_escapeHtml hc]
  · have h0 : countC '<' (SubContact.escapeHtml s) = 0 := countC_escapeHtml (by decide) s
    have hne : '<' ∉ (SubContact.escapeHtml s).data := by
      rw [← List.count_eq_zero]; exact h0
    have hdata : "<script>".data = '<' :: "script>".data := rfl
    unfold containsSub
    rw [hdata]
    exact hasSubAux_eq_false _ _ hne

/-- Witness for the amended C1 theorem at a concrete record and the
character `<`. -/
theorem c1_amended_witness :
    ('<' ∈ htmlSpecials)
    ∧ countC '<'
        (SubContact.generateAdminEmail
          { id := "1700000000000", name := "<script>alert(1)</script>"
            email := "a@b.com", phone := some "123", date := 1700000000000
            status := "pending", ip := "127.0.0.1" }) =
      countC '<'
        (SubContact.generateAdminEmail (scrubUserText
          { id := "1700000000000", name := "<script>alert(1)</script>"
            email := "a@b.com", phone := some "123", date := 1700000000000
            status := "pending", ip := "127.0.0.1" }))
    ∧ countC '<' (SubContact.escapeHtml "<script>") = 0 := by
  refine ⟨by decide, ?_, ?_⟩
  · exact (c1_amended_render_time_escaping
      { id := "1700000000000", name := "<script>alert(1)</script>"
        email := "a@b.com", phone := some "123", date := 1700000000000
        status := "pending", ip := "127.0.0.1" } {} '<' (by decide)).1
  · exact ((c1_amended_render_time_escaping
      { id := "1700000000000", name := "<script>alert(1)</script>"
        email := "a@b.com", phone := some "123", date := 1700000000000
        status := "pending", ip := "127.0.0.1" } {} '<' (by decide)).2.2.1 "<script>")

/-! ## Claim C2 -/

theorem mem_setStat_append {i : String} (store : List Contact002.Submission)
    (sub : Contact002.Submission) (st : String) (hid : sub.id = i) :
    ∃ s, s ∈ (store ++ [sub]).map
        (fun x => if x.id == i then { x with status := st } else x)
      ∧ s.id = i ∧ s.status = st := by
  refine ⟨{ sub with status := st }, ?_, hid, rfl⟩
  rw [List.map_append]
  apply List.mem_append_right
  simp [hid]

/-- Claim C2: for every validated submission whose dispatch fails, the
submission is still present in the store afterwards with status `failed`
(in SubdomainContact.js additionally carrying the error message), and the
handler returns HTTP 500 or 503 rather than crashing.  This covers both the
SubdomainContact.js handler (where an admin-send rejection is the failure
path) and the part_002 handler (where any failure — missing `ADMIN_EMAIL`
configuration included — reaches the catch handler). -/
theorem c2_dispatch_failure_persists
    (env : Env) (store : SubContact.SubMap) (store2 : List Contact002.Submission)
    (input input2 : RawInput) (nowMs : Int) (ip : String) (e e2 : String)
    (u u2 : Except String Unit)
    (hv : SubContact.validateContact input = [])
    (hv2 : Contact002.validate002 input2 = []) :
    (∃ s, SubContact.mapGet
        (SubContact.handleSubmit env store input nowMs ip (.error e) u).store
        (toString nowMs) = some s ∧ s.status = "failed" ∧ s.error = some e)
    ∧ ((SubContact.handleSubmit env store input nowMs ip (.error e) u).resp.status = 500
      ∨ (SubContact.handleSubmit env store input nowMs ip (.error e) u).resp.status = 503)
    ∧ (∃ s, s ∈ (Contact002.handleSubmit env store2 input2 nowMs (.error e2) u2).store
        ∧ s.id = toString nowMs ∧ s.status = "failed")
    ∧ (Contact002.handleSubmit env store2 input2 nowMs (.error e2) u2).resp.status = 500 := by
  refine ⟨?_, ?_, ?_, ?_⟩
  · simp only [SubContact.handleSubmit, hv, List.isEmpty_nil, if_true]
    simp only [SubContact.applyOps, List.foldl, SubContact.applyOp]
    exact ⟨_, mapGet_mapSet_self _ _ _, rfl, rfl⟩
  · simp only [SubContact.handleSubmit, hv, List.isEmpty_nil, if_true]
    by_cases hc : containsSub e "credentials" = true
    · right; simp [hc]
    · left; simp only [Bool.not_eq_true] at hc; simp [hc]
  · simp only [Contact002.handleSubmit, hv2, List.isEmpty_nil, if_true]
    by_cases hA : jsFalsy env.ADMIN_EMAIL = true
    · simp only [hA, if_true]
      simp only [Contact002.applyOps002, List.foldl, Contact002.applyOp002]
      exact mem_setStat_append store2 _ "failed" rfl
    · simp only [hA, Bool.false_eq_true, if_false]
      simp only [Contact002.applyOps002, List.foldl, Contact002.applyOp002]
      exact mem_setStat_append store2 _ "failed" rfl
  · simp only [Contact002.handleSubmit, hv2, List.isEmpty_nil, if_true]
    by_cases hA : jsFalsy env.ADMIN_EMAIL = true
    · simp [hA]
    · simp [hA]

/-- Witness for C2 at a concrete validated submission and a failing admin
send. -/
theorem c2_witness :
    SubContact.validateContact
        { name := some "Alice", email := some "alice@example.com", phone := none } = []
    ∧ Contact002.validate002
        { name := some "Alice", email := some "alice@example.com", phone := none } = []
    ∧ ((SubContact.handleSubmit {} []
          { name := some "Alice", email := some "alice@example.com", phone := none }
          1000 "127.0.0.1" (.error "boom") (.ok ())).resp.status = 500
      ∨ (SubContact.handleSubmit {} []
          { name := some "Alice", email := some "alice@example.com", phone := none }
          1000 "127.0.0.1" (.error "boom") (.ok ())).resp.status = 503) := by
  refine ⟨by decide, by decide, ?_⟩
  exact (c2_dispatch_failure_persists {} [] []
    { name := some "Alice", email := some "alice@example.com", phone := none }
    { name := some "Alice", email := some "alice@example.com", phone := none }
    1000 "127.0.0.1" "boom" "boom" (.ok ()) (.ok ())
    (by decide) (by decide)).2.1

/-! ## Claim C3 -/

/-- Claim C3: in both status-bearing handlers (SubdomainContact.js and
part_002) the sequence of `status` values written for a submission is either
empty (rejected request: nothing inserted), or `pending` followed by exactly
one forward transition to `completed` or to `failed` — no operation ever
writes `pending` after insertion or moves between `completed` and `failed`. -/
theorem c3_status_forward_only
    (env : Env) (store : SubContact.SubMap) (store2 : List Contact002.Submission)
    (input input2 : RawInput) (nowMs : Int) (ip : String)
    (a u a2 u2 : Except String Unit) :
    (SubContact.statusTrace (SubContact.handleSubmit env store input nowMs ip a u).ops = []
      ∨ SubContact.statusTrace (SubContact.handleSubmit env store input nowMs ip a u).ops
          = ["pending", "completed"]
      ∨ SubContact.statusTrace (SubContact.handleSubmit env store input nowMs ip a u).ops
          = ["pending", "failed"])
    ∧ (Contact002.statusTrace002 (Contact002.handleSubmit env store2 input2 nowMs a2 u2).ops = []
      ∨ Contact002.statusTrace002 (Contact002.handleSubmit env store2 input2 nowMs a2 u2).ops
          = ["pending", "completed"]
      ∨ Contact002.statusTrace002 (Contact002.handleSubmit env store2 input2 nowMs a2 u2).ops
          = ["pending", "failed"]) := by
  constructor
  · by_cases hv : (SubContact.validateContact input).isEmpty = true
    · simp only [SubContact.handleSubmit, hv, if_true]
      cases a with
      | ok _ => right; left; simp [SubContact.statusTrace]
      | error e => right; right; simp [SubContact.statusTrace]
    · left
      simp only [SubContact.handleSubmit, hv, Bool.false_eq_true, if_false]
      simp [SubContact.statusTrace]
  · by_cases hv : (Contact002.validate002 input2).isEmpty = true
    · simp only [Contact002.handleSubmit, hv, if_true]
      by_cases hA : jsFalsy env.ADMIN_EMAIL = true
      · right; right; simp [hA, Contact002.statusTrace002]
      · simp only [hA, Bool.false_eq_true, if_false]
        cases a2 with
        | error e => right; right; simp [Contact002.statusTrace002]
        | ok _ =>
          cases u2 with
          | error e => right; right; simp [Contact002.statusTrace002]
          | ok _ => right; left; simp [Contact002.statusTrace002]
    · left
      simp only [Contact002.handleSubmit, hv, Bool.false_eq_true, if_false]
      simp [Contact002.statusTrace002]

/-! ## Claim C4 -/

theorem subNameErrs_field (input : RawInput) :
    ∀ err ∈ SubContact.nameErrs input, err.field = "name" := by
  intro err herr
  simp only [SubContact.nameErrs] at herr
  split at herr
  · simp_all
  · split at herr <;> simp_all

theorem subEmailErrs_field (input : RawInput) :
    ∀ err ∈ SubContact.emailErrs input, err.field = "email" := by
  intro err herr
  simp only [SubContact.emailErrs] at herr
  split at herr
  · simp_all
  · split at herr
    · simp_all
    · split at herr <;> simp_all

theorem subPhoneErrs_field (input : RawInput) :
    ∀ err ∈ SubContact.phoneErrs input, err.field = "phone" := by
  intro err herr
  simp only [SubContact.phoneErrs] at herr
  split at herr
  · simp_all
  · split at herr
    · simp_all
    · split at herr <;> simp_all

theorem c000NameErrs_field (input : Contact000.RawInput000) :
    ∀ err ∈ Contact000.nameErrs input, err.field = "name" := by
  intro err herr
  unfold Contact000.nameErrs at herr
  split at herr <;> simp_all

theorem c000EmailErrs_field (input : Contact000.RawInput000) :
    ∀ err ∈ Contact000.emailErrs input, err.field = "email" := by
  intro err herr
  unfold Contact000.emailErrs at herr
  rw [List.mem_append] at herr
  rcases herr with h | h <;> (split at h <;> simp_all)

theorem c000CategoryErrs_field (input : Contact000.RawInput000) :
    ∀ err ∈ Contact000.categoryErrs input, err.field = "category" := by
  intro err herr
  unfold Contact000.categoryErrs at herr
  split at herr <;> simp_all

theorem c000MessageErrs_field (input : Contact000.RawInput000) :
    ∀ err ∈ Contact000.messageErrs input, err.field = "message" := by
  intro err herr
  unfold Contact000.messageErrs at herr
  split at herr <;> simp_all

/-- Claim C4: whenever any validation rule fails, the handler replies HTTP
400 with the full non-empty error list in which every entry names its
failing field, and the submission store is untouched (nothing persisted, no
store operations).  Covers the SubdomainContact.js handler and the part_000
handler. -/
theorem c4_validation_rejects_without_persisting
    (env : Env) (store : SubContact.SubMap) (store0 : List Contact000.Submission)
    (input : RawInput) (input0 : Contact000.RawInput000) (nowMs : Int) (ip : String)
    (a u a0 u0 : Except String Unit)
    (hv : SubContact.validateContact input ≠ [])
    (hv0 : Contact000.validate000 input0 ≠ []) :
    ((SubContact.handleSubmit env store input nowMs ip a u).resp.status = 400
      ∧ (SubContact.handleSubmit env store input nowMs ip a u).resp.errors
          = SubContact.validateContact input
      ∧ (SubContact.handleSubmit env store input nowMs ip a u).resp.errors ≠ []
      ∧ (SubContact.handleSubmit env store input nowMs ip a u).store = store
      ∧ (SubContact.handleSubmit env store input nowMs ip a u).ops = [])
    ∧ ((Contact000.handleSubmit store0 input0 nowMs a0 u0).resp.status = 400
      ∧ (Contact000.handleSubmit store0 input0 nowMs a0 u0).resp.errors
          = Contact000.validate000 input0
      ∧ (Contact000.handleSubmit store0 input0 nowMs a0 u0).resp.errors ≠ []
      ∧ (Contact000.handleSubmit store0 input0 nowMs a0 u0).store = store0)
    ∧ (∀ err ∈ SubContact.validateContact input,
        err.field = "name" ∨ err.field = "email" ∨ err.field = "phone")
    ∧ (∀ err ∈ Contact000.validate000 input0,
        err.field = "name" ∨ err.field = "email" ∨ err.field = "category"
          ∨ err.field = "message") := by
  have hne : (SubContact.validateContact input).isEmpty = false :=
    List.isEmpty_eq_false.mpr hv
  have hne0 : (Contact000.validate000 input0).isEmpty = false :=
    List.isEmpty_eq_false.mpr hv0
  refine ⟨?_, ?_, ?_, ?_⟩
  · simp only [SubContact.handleSubmit, hne, Bool.false_eq_true, if_false]
    simp_all
  · simp only [Contact000.handleSubmit, hne0, Bool.false_eq_true, if_false]
    simp_all
  · intro err herr
    unfold SubContact.validateContact at herr
    rw [List.mem_append, List.mem_append] at herr
    rcases herr with (h | h) | h
    · exact Or.inl (subNameErrs_field input err h)
    · exact Or.inr (Or.inl (subEmailErrs_field input err h))
    · exact Or.inr (Or.inr (subPhoneErrs_field input err h))
  · intro err herr
    unfold Contact000.validate000 at herr
    rw [List.mem_append, List.mem_append, List.mem_append] at herr
    rcases herr with ((h | h) | h) | h
    · exact Or.inl (c000NameErrs_field input0 err h)
    · exact Or.inr (Or.inl (c000EmailErrs_field input0 err h))
    · exact Or.inr (Or.inr (Or.inl (c000CategoryErrs_field input0 err h)))
    · exact Or.inr (Or.inr (Or.inr (c000MessageErrs_field input0 err h)))

/-- Witness for C4 at a concrete invalid input (missing name and email). -/
theorem c4_witness :
    SubContact.validateContact { phone := none } ≠ []
    ∧ Contact000.validate000 {} ≠ []
    ∧ (SubContact.handleSubmit {} [] { phone := none } 1000 "127.0.0.1"
        (.ok ()) (.ok ())).resp.status = 400
    ∧ (SubContact.handleSubmit {} [] { phone := none } 1000 "127.0.0.1"
        (.ok ()) (.ok ())).store = []
    ∧ (Contact000.handleSubmit [] {} 1000 (.ok ()) (.ok ())).resp.status = 400
    ∧ (Contact000.handleSubmit [] {} 1000 (.ok ()) (.ok ())).store = [] := by
  have h := c4_validation_rejects_without_persisting {} [] [] { phone := none } {}
    1000 "127.0.0.1" (.ok ()) (.ok ()) (.ok ()) (.ok ()) (by decide) (by decide)
  exact ⟨by decide, by decide, h.1.1, h.1.2.2.2.1, h.2.1.1, h.2.1.2.2.2⟩

/-! ## Claim C6 -/

/-- Claim C6: the periodic sweep of the TTL store variant runs on a fixed
hourly cadence (`setInterval` period of one hour) and removes exactly the
records whose age exceeds `SUBMISSION_TTL` (24 hours): an entry survives a
sweep at time `now` — unchanged — iff it was in the store and
`now - date ≤ SUBMISSION_TTL`; in particular a record more than 24 hours old
is absent afterwards and a record inserted 1 hour ago survives. -/
theorem c6_ttl_sweep (now : Int) (store : SubContact.SubMap) :
    (∀ e : String × SubContact.Submission,
      e ∈ SubContact.sweepSubmissions now store ↔
        e ∈ store ∧ now - e.2.date ≤ SubContact.SUBMISSION_TTL)
    ∧ SubContact.SUBMISSION_TTL = 86400000
    ∧ SubContact.sweepIntervalMs = 3600000 := by
  refine ⟨fun e => ?_, by decide, by decide⟩
  simp [SubContact.sweepSubmissions, List.mem_filter, not_lt]

/-! ## Claim C7 -/

/-- Claim C7 counterexample: in the part_002 handler the two sends run under
`Promise.all` with no guard on the user confirmation, so a failure of the
user confirmation alone (admin send succeeded) fails the whole request with
HTTP 500 instead of succeeding with 200 as the claim requires. -/
theorem c7_counterexample_part002_user_failure :
    (Contact002.handleSubmit { ADMIN_EMAIL := some "admin@example.com" } []
        { name := some "Alice", email := some "alice@example.com", phone := none }
        1000 (.ok ()) (.error "user send failed")).resp.status = 500
    ∧ (Contact002.handleSubmit { ADMIN_EMAIL := some "admin@example.com" } []
        { name := some "Alice", email := some "alice@example.com", phone := none }
        1000 (.ok ()) (.error "user send failed")).resp.success = false := by
  exact ⟨by decide, by decide⟩

/-- Claim C7 (amended): in SubdomainContact.js the user-confirmation send is
guarded by `.catch`, so for every validated submission and *any* outcome of
the user send, a successful admin send yields HTTP 200 with the stored
status `completed`, while an admin-send failure escalates to overall failure
(HTTP 500 or 503).  In the part_002 variant a user-send failure fails the
whole request (see the counterexample). -/
theorem c7_amended_dispatch_policy
    (env : Env) (store : SubContact.SubMap) (input : RawInput) (nowMs : Int)
    (ip : String) (e : String) (u : Except String Unit)
    (hv : SubContact.validateContact input = []) :
    ((SubContact.handleSubmit env store input nowMs ip (.ok ()) u).resp.status = 200
      ∧ (SubContact.handleSubmit env store input nowMs ip (.ok ()) u).resp.success = true
      ∧ (∃ s, SubContact.mapGet
          (SubContact.handleSubmit env store input nowMs ip (.ok ()) u).store
          (toString nowMs) = some s ∧ s.status = "completed"))
    ∧ ((SubContact.handleSubmit env store input nowMs ip (.error e) u).resp.success = false
      ∧ ((SubContact.handleSubmit env store input nowMs ip (.error e) u).resp.status = 500
        ∨ (SubContact.handleSubmit env store input nowMs ip (.error e) u).resp.status = 503)) := by
  refine ⟨⟨?_, ?_, ?_⟩, ?_, ?_⟩
  · simp [SubContact.handleSubmit, hv]
  · simp [SubContact.handleSubmit, hv]
  · simp only [SubContact.handleSubmit, hv, List.isEmpty_nil, if_true]
    simp only [SubContact.applyOps, List.foldl, SubContact.applyOp]
    exact ⟨_, mapGet_mapSet_self _ _ _, rfl⟩
  · simp [SubContact.handleSubmit, hv]
  · simp only [SubContact.handleSubmit, hv, List.isEmpty_nil, if_true]
    by_cases hc : containsSub e "credentials" = true
    · right; simp [hc]
    · left; simp only [Bool.not_eq_true] at hc; simp [hc]

/-- Witness for the amended C7 theorem: a concrete validated submission
whose user-confirmation send fails while the admin send succeeds still
results in HTTP 200. -/
theorem c7_amended_witness :
    SubContact.validateContact
        { name := some "Alice", email := some "alice@example.com", phone := none } = []
    ∧ (SubContact.handleSubmit {} []
        { name := some "Alice", email := some "alice@example.com", phone := none }
        1000 "127.0.0.1" (.ok ()) (.error "user send failed")).resp.status = 200 := by
  refine ⟨by decide, ?_⟩
  exact (c7_amended_dispatch_policy {} []
    { name := some "Alice", email := some "alice@example.com", phone := none }
    1000 "127.0.0.1" "x" (.error "user send failed") (by decide)).1.1

/-! ## Claim C8 -/

/-- Claim C8 counterexample: SignUp.js builds its mail transport with no
credential check at all — with both `EMAIL_USER` and `EMAIL_PASS` absent
from the environment, construction still succeeds (passing `undefined`
credentials through), instead of raising a configuration error. -/
theorem c8_counterexample_signup_silent_transport :
    jsFalsy ({} : Env).EMAIL_USER = true
    ∧ jsFalsy ({} : Env).EMAIL_PASS = true
    ∧ SignUpNS.signupTransporterE {}
        = .ok { service := "gmail", authUser := none, authPass := none } := by
  exact ⟨by decide, by decide, rfl⟩

/-- Claim C8 (amended): the `createTransporter` factories of
SubdomainContact.js and part_002 throw `Email credentials not configured`
exactly when either credential is absent (falsy), and construct a transport
otherwise; but the transporter of SignUp.js performs no check and always
constructs successfully (see the counterexample — the same holds for the
part_000 transporter). -/
theorem c8_amended_fail_fast (env : Env) :
    (SubContact.createTransporter env = .error "Email credentials not configured"
      ↔ (jsFalsy env.EMAIL_USER || jsFalsy env.EMAIL_PASS) = true)
    ∧ (Contact002.createTransporter env = .error "Email credentials not configured"
      ↔ (jsFalsy env.EMAIL_USER || jsFalsy env.EMAIL_PASS) = true)
    ∧ (SignUpNS.signupTransporterE env).isOk = true := by
  refine ⟨?_, ?_, rfl⟩
  · unfold SubContact.createTransporter
    by_cases h : (jsFalsy env.EMAIL_USER || jsFalsy env.EMAIL_PASS) = true
    · simp [h]
    · simp only [h, Bool.false_eq_true, if_false]
      split <;> simp [h]
  · unfold Contact002.createTransporter
    by_cases h : (jsFalsy env.EMAIL_USER || jsFalsy env.EMAIL_PASS) = true
    · simp [h]
    · simp [h]

/-! ## Claim C9 -/

/-- Claim C9 (part_002 code bug): the part_002 catch handler computes
`error.message.includes('credentials') ? 500 : 500` — a conditional with two
identical arms — so a configuration-related dispatch failure whose message
contains `credentials` is answered with HTTP 500, not the 503 the spec
requires, even though the same conditional selects the configuration-
specific body message `Service temporarily unavailable`.  (The revised
handler in SubdomainContact.js returns 503 in this case.) -/
theorem c9_part002_credentials_error_returns_500 :
    containsSub "Missing credentials for PLAIN" "credentials" = true
    ∧ (Contact002.handleSubmit { ADMIN_EMAIL := some "admin@example.com" } []
        { name := some "Alice", email := some "alice@example.com", phone := none }
        1000 (.error "Missing credentials for PLAIN") (.ok ())).resp.status = 500
    ∧ (Contact002.handleSubmit { ADMIN_EMAIL := some "admin@example.com" } []
        { name := some "Alice", email := some "alice@example.com", phone := none }
        1000 (.error "Missing credentials for PLAIN") (.ok ())).resp.message
        = some "Service temporarily unavailable" := by
  exact ⟨by decide, by decide, by decide⟩

/-! ## Claim C10 -/

/-- Claim C10: for every state of the submission store, the listing
endpoints (part_000 `GET /submissions` and SignUp.js `GET /`) reply with
HTTP 200, `success = true`, and a `count` equal to the number of elements of
the returned `data` array (which is the store itself). -/
theorem c10_list_response_count (subs : List Contact000.Submission)
    (sgs : List SignUpNS.Signup) :
    (Contact000.getSubmissions subs).status = 200
    ∧ (Contact000.getSubmissions subs).success = true
    ∧ (Contact000.getSubmissions subs).count = (Contact000.getSubmissions subs).data.length
    ∧ (Contact000.getSubmissions subs).data = subs
    ∧ (SignUpNS.getSignups sgs).status = 200
    ∧ (SignUpNS.getSignups sgs).success = true
    ∧ (SignUpNS.getSignups sgs).count = (SignUpNS.getSignups sgs).data.length
    ∧ (SignUpNS.getSignups sgs).data = sgs := by
  exact ⟨rfl, rfl, rfl, rfl, rfl, rfl, rfl, rfl⟩

/-! ## Claim C5 -/

theorem filter_eq_concat_split {α : Type} (P : α → Bool) :
    ∀ (l s : List α) (r : α), l.filter P = s ++ [r] →
      ∃ p q, l = p ++ r :: q ∧ p.filter P = s ∧ q.filter P = []
  | [], s, r, h => by simp at h
  | x :: xs, s, r, h => by
    by_cases hx : P x = true
    · rw [List.filter_cons_of_pos hx] at h
      cases s with
      | nil =>
        simp only [List.nil_append, List.cons.injEq] at h
        obtain ⟨rfl, hq⟩ := h
        exact ⟨[], xs, rfl, rfl, hq⟩
      | cons y s' =>
        simp only [List.cons_append, List.cons.injEq] at h
        obtain ⟨rfl, h2⟩ := h
        obtain ⟨p, q, rfl, hfp, hfq⟩ := filter_eq_concat_split P xs s' r h2
        exact ⟨x :: p, q, rfl, by rw [List.filter_cons_of_pos hx, hfp], hfq⟩
    · rw [List.filter_cons_of_neg hx] at h
      obtain ⟨p, q, rfl, hfp, hfq⟩ := filter_eq_concat_split P xs s r h
      exact ⟨x :: p, q, rfl, by rw [List.filter_cons_of_neg hx, hfp], hfq⟩

theorem append_singleton_split {α : Type} {l p q : List α} {x r : α}
    (h : l ++ [x] = p ++ r :: q) :
    (p = l ∧ r = x ∧ q = []) ∨ ∃ q', l = p ++ r :: q' := by
  rcases List.eq_nil_or_concat q with rfl | ⟨q', b, rfl⟩
  · have hlen : l.length = p.length := by
      have := congrArg List.length h
      simp at this
      omega
    obtain ⟨h1, h2⟩ := List.append_inj h hlen
    simp only [List.cons.injEq] at h2
    exact Or.inl ⟨h1.symm, h2.1.symm, rfl⟩
  · rw [List.concat_eq_append] at h
    have h' : l ++ [x] = (p ++ r :: q') ++ [b] := by
      rw [h]; simp
    have hlen : l.length = (p ++ r :: q').length := by
      have := congrArg List.length h'
      simp only [List.length_append, List.length_cons] at this ⊢
      omega
    obtain ⟨h1, _⟩ := List.append_inj h' hlen
    exact Or.inr ⟨q', h1⟩

/-- The accepted-event list of the modelled limiter satisfies, at every
position, the acceptance condition that admitted the event there: fewer
than `rateMax` earlier accepted events of the same address lay within the
15-minute window preceding it. -/
theorem runLimiter_inv :
    ∀ (reqs acc : List RateLimiter.Req),
      (∀ p r q, acc = p ++ r :: q →
        RateLimiter.countWin p r.2 r.1 < RateLimiter.rateMax) →
      ∀ p r q, reqs.foldl RateLimiter.stepLimiter acc = p ++ r :: q →
        RateLimiter.countWin p r.2 r.1 < RateLimiter.rateMax
  | [], _, hInv => by simpa using hInv
  | x :: xs, acc, hInv => by
    simp only [List.foldl_cons]
    apply runLimiter_inv xs (RateLimiter.stepLimiter acc x)
    intro p r q hsplit
    unfold RateLimiter.stepLimiter at hsplit
    by_cases hc : RateLimiter.countWin acc x.2 x.1 < RateLimiter.rateMax
    · rw [if_pos hc] at hsplit
      rcases append_singleton_split hsplit with ⟨rfl, rfl, rfl⟩ | ⟨q', hsplit'⟩
      · exact hc
      · exact hInv p r q' hsplit'
    · rw [if_neg hc] at hsplit
      exact hInv p r q hsplit

/-- Sliding-window bound: whatever the request sequence, at most `rateMax`
events of a given address are accepted within any 15-minute window
`[t0, t0 + rateWindowMs)`. -/
theorem limiter_sliding_bound (reqs : List RateLimiter.Req) (t0 : Int) (addr : String) :
    ((RateLimiter.runLimiter reqs).filter (RateLimiter.inFixedWin t0 addr)).length
      ≤ RateLimiter.rateMax := by
  by_contra hgt
  push_neg at hgt
  rcases List.eq_nil_or_concat
      ((RateLimiter.runLimiter reqs).filter (RateLimiter.inFixedWin t0 addr)) with
    hnil | ⟨s, r, hcat⟩
  · rw [hnil] at hgt; simp at hgt
  · rw [List.concat_eq_append] at hcat
    have hr_mem : r ∈ (RateLimiter.runLimiter reqs).filter (RateLimiter.inFixedWin t0 addr) := by
      rw [hcat]; simp
    have hrP : RateLimiter.inFixedWin t0 addr r = true := (List.mem_filter.mp hr_mem).2
    obtain ⟨p, q, hlq, hfp, _⟩ :=
      filter_eq_concat_split (RateLimiter.inFixedWin t0 addr) (RateLimiter.runLimiter reqs) s r hcat
    have hinv : RateLimiter.countWin p r.2 r.1 < RateLimiter.rateMax := by
      apply runLimiter_inv reqs [] (by intro p r q h; simp at h) p r q
      unfold RateLimiter.runLimiter at hlq
      exact hlq
    have hmono : s.length ≤ RateLimiter.countWin p r.2 r.1 := by
      have hs : s.length = (p.filter (RateLimiter.inFixedWin t0 addr)).length := by rw [hfp]
      rw [hs, RateLimiter.countWin, ← List.countP_eq_length_filter,
        ← List.countP_eq_length_filter]
      apply List.countP_mono_left
      intro e _ hePred
      simp only [RateLimiter.inFixedWin, Bool.and_eq_true, beq_iff_eq,
        decide_eq_true_eq] at hePred hrP
      simp only [RateLimiter.inDecisionWin, Bool.and_eq_true, beq_iff_eq,
        decide_eq_true_eq]
      refine ⟨by rw [hePred.1.1, hrP.1.1], ?_⟩
      have h1 := hePred.1.2
      have h2 := hrP.2
      simp only [RateLimiter.rateWindowMs] at h1 h2 ⊢
      omega
    have hlen : ((RateLimiter.runLimiter reqs).filter
        (RateLimiter.inFixedWin t0 addr)).length = s.length + 1 := by
      rw [hcat]; simp
    omega

/-- Claim C5 (spec-modelled — `express-rate-limit`'s algorithm is not in the
repository; the limiter is modelled from spec §4.2 with the configuration of
SubdomainContact.js lines 12–16): for every client address, at most 5
requests are accepted within any 15-minute window, and a request arriving
when its window already holds 5 accepted requests is rejected with the fixed
message before validation runs — the handler is never invoked and the reply
is independent of the request body. -/
theorem c5_rate_limit_window
    (reqs : List RateLimiter.Req) (t0 : Int) (addr : String)
    (env : Env) (lim : List RateLimiter.Req) (store : SubContact.SubMap)
    (input input' : RawInput) (nowMs : Int) (ip : String)
    (a u a' u' : Except String Unit)
    (hfull : ¬ RateLimiter.countWin lim ip nowMs < RateLimiter.rateMax) :
    ((RateLimiter.runLimiter reqs).filter (RateLimiter.inFixedWin t0 addr)).length
        ≤ RateLimiter.rateMax
    ∧ RateLimiter.contactRoute env lim store input nowMs ip a u
        = (lim, { store := store
                  resp := { status := 429, success := false
                            message := RateLimiter.rateMessage }
                  ops := [] })
    ∧ RateLimiter.contactRoute env lim store input nowMs ip a u
        = RateLimiter.contactRoute env lim store input' nowMs ip a' u' := by
  refine ⟨limiter_sliding_bound reqs t0 addr, ?_, ?_⟩
  · unfold RateLimiter.contactRoute
    rw [if_neg hfull]
  · unfold RateLimiter.contactRoute
    rw [if_neg hfull, if_neg hfull]

/-- Witness for C5: six same-address requests within one window — at most
five are accepted, and with five accepted events in the window the route
answers 429 with the fixed message. -/
theorem c5_witness :
    (¬ RateLimiter.countWin
        [(0, "9.9.9.9"), (1, "9.9.9.9"), (2, "9.9.9.9"), (3, "9.9.9.9"), (4, "9.9.9.9")]
        "9.9.9.9" 5 < RateLimiter.rateMax)
    ∧ ((RateLimiter.runLimiter
          [(0, "9.9.9.9"), (1, "9.9.9.9"), (2, "9.9.9.9"), (3, "9.9.9.9"),
            (4, "9.9.9.9"), (5, "9.9.9.9")]).filter
          (RateLimiter.inFixedWin 0 "9.9.9.9")).length ≤ RateLimiter.rateMax
    ∧ (RateLimiter.contactRoute {}
        [(0, "9.9.9.9"), (1, "9.9.9.9"), (2, "9.9.9.9"), (3, "9.9.9.9"), (4, "9.9.9.9")]
        [] {} 5 "9.9.9.9" (.ok ()) (.ok ())).2.resp.status = 429 := by
  have h := c5_rate_limit_window
    [(0, "9.9.9.9"), (1, "9.9.9.9"), (2, "9.9.9.9"), (3, "9.9.9.9"),
      (4, "9.9.9.9"), (5, "9.9.9.9")] 0 "9.9.9.9" {}
    [(0, "9.9.9.9"), (1, "9.9.9.9"), (2, "9.9.9.9"), (3, "9.9.9.9"), (4, "9.9.9.9")]
    [] {} {} 5 "9.9.9.9" (.ok ()) (.ok ()) (.ok ()) (.ok ()) (by decide)
  exact ⟨by decide, h.1, by rw [h.2.1]⟩
